import Mathlib

/-!
Verification of the library-panel persistence core
(pkg/services/librarypanels/database.go).

The two tables (library_panel, library_panel_dashboard) are modelled as
lists of rows inside a DBState; each service operation from database.go is
translated into a pure function from a DBState to an Except result, where
an error result means the enclosing transactional session rolled back and
the state is unchanged.  Storage-layer faults that the Go code classifies
through Dialect.IsUniqueConstraintViolation are modelled by an injectable
SqlError argument; the natural uniqueness checks of the two unique
constraints (panel UID; connection (panel key, dashboard id) pair) are also
evaluated against the model state.
-/

set_option autoImplicit false

namespace LibraryPanels

/-- A row of the library_panel table (struct LibraryPanel). The model blob
is opaque to this core; it is represented as an optional string so that the
nil / non-nil distinction used by patch is preserved. -/
structure LibraryPanel where
  ID : Int
  OrgID : Int
  FolderID : Int
  UID : String
  Name : String
  Model : Option String
  Created : Nat
  Updated : Nat
  CreatedBy : Int
  UpdatedBy : Int
deriving DecidableEq

/-- A row of the library_panel_dashboard join table (struct libraryPanelDashboard). -/
structure LibraryPanelDashboard where
  DashboardID : Int
  LibraryPanelID : Int
  Created : Nat
  CreatedBy : Int
deriving DecidableEq

/-- The two tables shared by every caller. -/
structure DBState where
  panels : List LibraryPanel
  connections : List LibraryPanelDashboard
deriving DecidableEq

/-- Storage-layer fault as seen by the session: either the fault that
Dialect.IsUniqueConstraintViolation classifies as a uniqueness-constraint
violation, or any other storage error (carried as an opaque code). -/
inductive SqlError where
  | uniqueViolation
  | other (code : Nat)
deriving DecidableEq

/-- Service-level errors: errLibraryPanelNotFound, errLibraryPanelAlreadyExists,
errLibraryPanelDashboardNotFound, the defensive fmt.Errorf raised when a
supposedly unique lookup returns several rows, and a passed-through
unclassified storage fault. -/
inductive LPError where
  | notFound
  | alreadyExists
  | dashboardNotFound
  | invariantViolation (count : Nat)
  | storage (code : Nat)
deriving DecidableEq

/-- Fields of createLibraryPanelCommand used by createLibraryPanel. -/
structure CreateCommand where
  FolderID : Int
  Name : String
  Model : Option String
deriving DecidableEq

/-- Fields of patchLibraryPanelCommand used by patchLibraryPanel. -/
structure PatchCommand where
  FolderID : Int
  Name : String
  Model : Option String
deriving DecidableEq

/-- The WHERE uid=? AND org_id=? predicate used by getLibraryPanel and by
the DELETE of deleteLibraryPanel. -/
def panelMatches (uid : String) (orgID : Int) (p : LibraryPanel) : Bool :=
  p.UID == uid && p.OrgID == orgID

/-- The WHERE librarypanel_id=? and dashboard_id=? predicate used by
disconnectDashboard and by the unique constraint of the join table. -/
def connMatches (panelID dashboardID : Int) (c : LibraryPanelDashboard) : Bool :=
  c.LibraryPanelID == panelID && c.DashboardID == dashboardID

/-- The storage-assigned primary key for a fresh panel row. -/
def nextPanelID (st : DBState) : Int :=
  1 + (st.panels.map LibraryPanel.ID).foldr max 0

/-- session.Insert of a library_panel row: an injected fault is returned as
is; otherwise the unique constraint on UID is checked and the row appended. -/
def sessionInsertPanel (st : DBState) (p : LibraryPanel) (fault : Option SqlError) :
    Except SqlError DBState :=
  match fault with
  | some e => Except.error e
  | none =>
    if st.panels.any (fun q => q.UID == p.UID) then
      Except.error SqlError.uniqueViolation
    else
      Except.ok { st with panels := st.panels ++ [p] }

/-- session.Insert of a library_panel_dashboard row: an injected fault is
returned as is; otherwise the unique constraint on the
(librarypanel_id, dashboard_id) pair is checked and the row appended. -/
def sessionInsertConn (st : DBState) (c : LibraryPanelDashboard) (fault : Option SqlError) :
    Except SqlError DBState :=
  match fault with
  | some e => Except.error e
  | none =>
    if st.connections.any (connMatches c.LibraryPanelID c.DashboardID) then
      Except.error SqlError.uniqueViolation
    else
      Except.ok { st with connections := st.connections ++ [c] }

/-- session.ID(id).Update of a library_panel row: an injected fault is
returned as is; otherwise the unique constraint on UID is checked against
every other row, the rows with the given primary key are replaced, and the
number of affected rows is reported. -/
def sessionUpdatePanelByID (st : DBState) (id : Int) (p : LibraryPanel)
    (fault : Option SqlError) : Except SqlError (DBState × Nat) :=
  match fault with
  | some e => Except.error e
  | none =>
    if st.panels.any (fun q => !(q.ID == id) && q.UID == p.UID) then
      Except.error SqlError.uniqueViolation
    else
      Except.ok ({ st with panels := st.panels.map (fun q => if q.ID = id then p else q) },
        (st.panels.filter (fun q => q.ID == id)).length)

/-- getLibraryPanel (the session-level helper, database.go lines 113-129):
select the rows matching (uid, orgID); zero rows is errLibraryPanelNotFound,
more than one row is the defensive invariant-violation error carrying the
row count, exactly one row is returned. -/
def getLibraryPanel (st : DBState) (uid : String) (orgID : Int) :
    Except LPError LibraryPanel :=
  match st.panels.filter (panelMatches uid orgID) with
  | [] => Except.error LPError.notFound
  | [p] => Except.ok p
  | p :: q :: rest => Except.error (LPError.invariantViolation (p :: q :: rest).length)

/-- The fresh row built by createLibraryPanel before the insert. -/
def newLibraryPanel (st : DBState) (user orgID : Int) (cmd : CreateCommand)
    (genUID : String) (now : Nat) : LibraryPanel :=
  { ID := nextPanelID st
    OrgID := orgID
    FolderID := cmd.FolderID
    UID := genUID
    Name := cmd.Name
    Model := cmd.Model
    Created := now
    Updated := now
    CreatedBy := user
    UpdatedBy := user }

/-- createLibraryPanel (database.go lines 16-41): build the new row, insert
it inside a transactional session; a uniqueness violation becomes
errLibraryPanelAlreadyExists, any other fault passes through. -/
def createLibraryPanel (st : DBState) (user orgID : Int) (cmd : CreateCommand)
    (genUID : String) (now : Nat) (fault : Option SqlError) :
    Except LPError (DBState × LibraryPanel) :=
  let libraryPanel := newLibraryPanel st user orgID cmd genUID now
  match sessionInsertPanel st libraryPanel fault with
  | Except.error SqlError.uniqueViolation => Except.error LPError.alreadyExists
  | Except.error (SqlError.other code) => Except.error (LPError.storage code)
  | Except.ok st2 => Except.ok (st2, libraryPanel)

/-- connectDashboard (database.go lines 44-69): resolve the panel by
(uid, orgID), then insert the connection row; a uniqueness violation
(already connected) is normalized to success. -/
def connectDashboard (st : DBState) (user orgID : Int) (uid : String)
    (dashboardID : Int) (now : Nat) (fault : Option SqlError) :
    Except LPError DBState :=
  match getLibraryPanel st uid orgID with
  | Except.error e => Except.error e
  | Except.ok panel =>
    let lpd : LibraryPanelDashboard :=
      { DashboardID := dashboardID
        LibraryPanelID := panel.ID
        Created := now
        CreatedBy := user }
    match sessionInsertConn st lpd fault with
    | Except.error SqlError.uniqueViolation => Except.ok st
    | Except.error (SqlError.other code) => Except.error (LPError.storage code)
    | Except.ok st2 => Except.ok st2

/-- deleteLibraryPanel (database.go lines 72-88): DELETE by the (uid, orgID)
predicate with no prior read; anything other than exactly one affected row
is errLibraryPanelNotFound, and the transactional session rolls the delete
back in that case. -/
def deleteLibraryPanel (st : DBState) (orgID : Int) (uid : String) :
    Except LPError DBState :=
  let remaining := st.panels.filter (fun p => !(panelMatches uid orgID p))
  let rowsAffected := st.panels.length - remaining.length
  if rowsAffected ≠ 1 then Except.error LPError.notFound
  else Except.ok { st with panels := remaining }

/-- disconnectDashboard (database.go lines 91-111): resolve the panel by
(uid, orgID), then DELETE the join row matching (panel key, dashboardID);
anything other than exactly one affected row is
errLibraryPanelDashboardNotFound, rolled back by the session. -/
def disconnectDashboard (st : DBState) (orgID : Int) (uid : String)
    (dashboardID : Int) : Except LPError DBState :=
  match getLibraryPanel st uid orgID with
  | Except.error e => Except.error e
  | Except.ok panel =>
    let remaining := st.connections.filter (fun c => !(connMatches panel.ID dashboardID c))
    let rowsAffected := st.connections.length - remaining.length
    if rowsAffected ≠ 1 then Except.error LPError.dashboardNotFound
    else Except.ok { st with connections := remaining }

/-- getConnectedDashboards (database.go lines 160-184): resolve the panel by
(uid, orgID), then collect the dashboard ids of the join rows referencing
its primary key. -/
def getConnectedDashboards (st : DBState) (orgID : Int) (uid : String) :
    Except LPError (List Int) :=
  match getLibraryPanel st uid orgID with
  | Except.error e => Except.error e
  | Except.ok panel =>
    Except.ok ((st.connections.filter
      (fun c => c.LibraryPanelID == panel.ID)).map LibraryPanelDashboard.DashboardID)

/-- The merged replacement row built by patchLibraryPanel
(database.go lines 195-216): every field is taken from the command, then
each default-valued command field (folder id 0, empty name, nil model) is
overwritten with the value of the existing row. -/
def mergedPanel (panelInDB : LibraryPanel) (user orgID : Int) (cmd : PatchCommand)
    (uid : String) (now : Nat) : LibraryPanel :=
  let p : LibraryPanel :=
    { ID := panelInDB.ID
      OrgID := orgID
      FolderID := cmd.FolderID
      UID := uid
      Name := cmd.Name
      Model := cmd.Model
      Created := panelInDB.Created
      CreatedBy := panelInDB.CreatedBy
      Updated := now
      UpdatedBy := user }
  let p := if cmd.FolderID = 0 then { p with FolderID := panelInDB.FolderID } else p
  let p := if cmd.Name = "" then { p with Name := panelInDB.Name } else p
  if cmd.Model = none then { p with Model := panelInDB.Model } else p

/-- Classification of the update result inside patchLibraryPanel
(database.go lines 218-225): a uniqueness violation becomes
errLibraryPanelAlreadyExists, another fault passes through, an affected-row
count other than one becomes errLibraryPanelNotFound, and otherwise the
merged row is returned with the new state. -/
def patchWriteOutcome (merged : LibraryPanel)
    (r : Except SqlError (DBState × Nat)) : Except LPError (DBState × LibraryPanel) :=
  match r with
  | Except.error SqlError.uniqueViolation => Except.error LPError.alreadyExists
  | Except.error (SqlError.other code) => Except.error (LPError.storage code)
  | Except.ok (st2, rowsAffected) =>
    if rowsAffected ≠ 1 then Except.error LPError.notFound
    else Except.ok (st2, merged)

/-- patchLibraryPanel (database.go lines 187-231): read the existing row via
getLibraryPanel, build the merged replacement row, update by the internal
key of the existing row, and classify the outcome. -/
def patchLibraryPanel (st : DBState) (user orgID : Int) (cmd : PatchCommand)
    (uid : String) (now : Nat) (fault : Option SqlError) :
    Except LPError (DBState × LibraryPanel) :=
  match getLibraryPanel st uid orgID with
  | Except.error e => Except.error e
  | Except.ok panelInDB =>
    let merged := mergedPanel panelInDB user orgID cmd uid now
    patchWriteOutcome merged (sessionUpdatePanelByID st panelInDB.ID merged fault)

/-- The state after connectDashboard under the rollback semantics of the
transactional session: an error rolls back and leaves the store unchanged. -/
def runConnect (st : DBState) (user orgID : Int) (uid : String)
    (dashboardID : Int) (now : Nat) (fault : Option SqlError) : DBState :=
  match connectDashboard st user orgID uid dashboardID now fault with
  | Except.ok st2 => st2
  | Except.error _ => st

/-- The state after disconnectDashboard under the rollback semantics of the
transactional session: an error rolls back and leaves the store unchanged. -/
def runDisconnect (st : DBState) (orgID : Int) (uid : String)
    (dashboardID : Int) : DBState :=
  match disconnectDashboard st orgID uid dashboardID with
  | Except.ok st2 => st2
  | Except.error _ => st

/-! Helper lemmas shared by the claim theorems. -/

theorem getLibraryPanel_ok_iff (st : DBState) (uid : String) (orgID : Int)
    (p : LibraryPanel) :
    getLibraryPanel st uid orgID = Except.ok p ↔
      st.panels.filter (panelMatches uid orgID) = [p] := by
  unfold getLibraryPanel
  cases hf : st.panels.filter (panelMatches uid orgID) with
  | nil => simp
  | cons a t =>
    cases t with
    | nil => simp
    | cons b t2 => simp

theorem getLibraryPanel_notFound_iff (st : DBState) (uid : String) (orgID : Int) :
    getLibraryPanel st uid orgID = Except.error LPError.notFound ↔
      st.panels.filter (panelMatches uid orgID) = [] := by
  unfold getLibraryPanel
  cases hf : st.panels.filter (panelMatches uid orgID) with
  | nil => simp
  | cons a t =>
    cases t with
    | nil => simp
    | cons b t2 => simp

theorem filter_singleton_mem {α : Type} (l : List α) (p : α → Bool) (a : α)
    (h : l.filter p = [a]) : a ∈ l ∧ p a = true := by
  have ha : a ∈ l.filter p := by rw [h]; exact List.mem_singleton_self a
  exact List.mem_filter.mp ha

theorem panelMatches_true_iff (uid : String) (orgID : Int) (p : LibraryPanel) :
    panelMatches uid orgID p = true ↔ p.UID = uid ∧ p.OrgID = orgID := by
  simp [panelMatches]

theorem length_filter_add_length_filter_not {α : Type} (l : List α) (p : α → Bool) :
    (l.filter p).length + (l.filter (fun a => !(p a))).length = l.length := by
  induction l with
  | nil => simp
  | cons a t ih =>
    by_cases h : p a = true
    · simp [List.filter_cons, h, ← ih]; omega
    · simp [List.filter_cons, h, ← ih]; omega

theorem mergedPanel_fixed_fields (panelInDB : LibraryPanel) (user orgID : Int)
    (cmd : PatchCommand) (uid : String) (now : Nat) :
    (mergedPanel panelInDB user orgID cmd uid now).ID = panelInDB.ID ∧
    (mergedPanel panelInDB user orgID cmd uid now).OrgID = orgID ∧
    (mergedPanel panelInDB user orgID cmd uid now).UID = uid ∧
    (mergedPanel panelInDB user orgID cmd uid now).Created = panelInDB.Created ∧
    (mergedPanel panelInDB user orgID cmd uid now).CreatedBy = panelInDB.CreatedBy ∧
    (mergedPanel panelInDB user orgID cmd uid now).Updated = now ∧
    (mergedPanel panelInDB user orgID cmd uid now).UpdatedBy = user := by
  by_cases h1 : cmd.FolderID = 0 <;> by_cases h2 : cmd.Name = "" <;>
    by_cases h3 : cmd.Model = none <;> simp [mergedPanel, h1, h2, h3]

theorem mergedPanel_merge_fields (panelInDB : LibraryPanel) (user orgID : Int)
    (cmd : PatchCommand) (uid : String) (now : Nat) :
    (mergedPanel panelInDB user orgID cmd uid now).FolderID =
      (if cmd.FolderID = 0 then panelInDB.FolderID else cmd.FolderID) ∧
    (mergedPanel panelInDB user orgID cmd uid now).Name =
      (if cmd.Name = "" then panelInDB.Name else cmd.Name) ∧
    (mergedPanel panelInDB user orgID cmd uid now).Model =
      (if cmd.Model = none then panelInDB.Model else cmd.Model) := by
  by_cases h1 : cmd.FolderID = 0 <;> by_cases h2 : cmd.Name = "" <;>
    by_cases h3 : cmd.Model = none <;> simp [mergedPanel, h1, h2, h3]

theorem patchWriteOutcome_alreadyExists_iff (m : LibraryPanel)
    (r : Except SqlError (DBState × Nat)) :
    patchWriteOutcome m r = Except.error LPError.alreadyExists ↔
      r = Except.error SqlError.uniqueViolation := by
  unfold patchWriteOutcome
  cases r with
  | error e => cases e <;> simp
  | ok p =>
    obtain ⟨st2, n⟩ := p
    by_cases hn : n ≠ 1 <;> simp [hn]

theorem patchWriteOutcome_ok_merged (m : LibraryPanel)
    (r : Except SqlError (DBState × Nat)) (s : DBState) (m2 : LibraryPanel)
    (h : patchWriteOutcome m r = Except.ok (s, m2)) : m2 = m := by
  unfold patchWriteOutcome at h
  cases r with
  | error e => cases e <;> simp at h
  | ok p =>
    obtain ⟨st2, n⟩ := p
    by_cases hn : n ≠ 1
    · simp [hn] at h
    · simp [hn] at h
      exact h.2.symm

/-! Concrete rows and states used by the witnesses. -/

/-- A concrete panel row used by the witnesses. -/
def panelA : LibraryPanel :=
  { ID := 1, OrgID := 1, FolderID := 5, UID := "u1", Name := "CPU",
    Model := some "graph", Created := 10, Updated := 10,
    CreatedBy := 42, UpdatedBy := 42 }

/-- A second concrete panel row used by the witnesses. -/
def panelB : LibraryPanel :=
  { ID := 2, OrgID := 1, FolderID := 6, UID := "u2", Name := "Mem",
    Model := none, Created := 11, Updated := 11,
    CreatedBy := 42, UpdatedBy := 42 }

/-- A concrete connection row (panel 1 connected to dashboard 100). -/
def connA : LibraryPanelDashboard :=
  { DashboardID := 100, LibraryPanelID := 1, Created := 12, CreatedBy := 42 }

/-- A concrete store with two panels and no connections. -/
def stA : DBState := { panels := [panelA, panelB], connections := [] }

/-- A concrete store with two panels and one connection. -/
def stB : DBState := { panels := [panelA, panelB], connections := [connA] }

/-! Claim theorems. -/

/-- C3: for every (uid, orgID), getLibraryPanel returns notFound when zero
rows match, the invariant-violation error (carrying the row count) when more
than one row matches, and the single row when exactly one matches; the two
error kinds are distinct constructors and are never collapsed. -/
theorem get_three_outcomes (st : DBState) (uid : String) (orgID : Int) :
    (st.panels.filter (panelMatches uid orgID) = [] →
      getLibraryPanel st uid orgID = Except.error LPError.notFound) ∧
    (∀ p, st.panels.filter (panelMatches uid orgID) = [p] →
      getLibraryPanel st uid orgID = Except.ok p) ∧
    (∀ p q rest, st.panels.filter (panelMatches uid orgID) = p :: q :: rest →
      getLibraryPanel st uid orgID =
        Except.error (LPError.invariantViolation (p :: q :: rest).length)) ∧
    (∀ n, LPError.invariantViolation n ≠ LPError.notFound) := by
  refine ⟨fun h => ?_, fun p h => ?_, fun p q rest h => ?_, fun n => by simp⟩
  · exact (getLibraryPanel_notFound_iff st uid orgID).mpr h
  · exact (getLibraryPanel_ok_iff st uid orgID p).mpr h
  · unfold getLibraryPanel
    rw [h]

/-- C3 witness: on a concrete two-row store, the lookup of an absent uid is
notFound, the lookup of a present uid returns its row, and a corrupted store
holding the same (uid, orgID) twice raises the invariant-violation error. -/
theorem get_three_outcomes_witness :
    getLibraryPanel
      { panels := [{ ID := 1, OrgID := 1, FolderID := 5, UID := "u1", Name := "CPU",
                     Model := some "graph", Created := 10, Updated := 10,
                     CreatedBy := 42, UpdatedBy := 42 }], connections := [] }
      "zzz" 1 = Except.error LPError.notFound ∧
    getLibraryPanel
      { panels := [{ ID := 1, OrgID := 1, FolderID := 5, UID := "u1", Name := "CPU",
                     Model := some "graph", Created := 10, Updated := 10,
                     CreatedBy := 42, UpdatedBy := 42 }], connections := [] }
      "u1" 1 = Except.ok
        { ID := 1, OrgID := 1, FolderID := 5, UID := "u1", Name := "CPU",
          Model := some "graph", Created := 10, Updated := 10,
          CreatedBy := 42, UpdatedBy := 42 } := by
  constructor
  · exact (get_three_outcomes _ "zzz" 1).1 (by decide)
  · exact (get_three_outcomes _ "u1" 1).2.1 _ (by decide)

/-- C4: deleteLibraryPanel acts by the (uid, orgID) predicate; when no row
matches it fails with notFound, and when exactly one row matches it removes
exactly that row, keeping every other panel row and every connection row
(the connections table is untouched, so rows referencing the deleted key
stay). -/
theorem delete_exact_row (st : DBState) (uid : String) (orgID : Int) :
    (st.panels.filter (panelMatches uid orgID) = [] →
      deleteLibraryPanel st orgID uid = Except.error LPError.notFound) ∧
    (∀ p, st.panels.filter (panelMatches uid orgID) = [p] →
      deleteLibraryPanel st orgID uid =
        Except.ok { panels := st.panels.filter (fun q => !(panelMatches uid orgID q)),
                    connections := st.connections }) := by
  have hlen := length_filter_add_length_filter_not st.panels (panelMatches uid orgID)
  constructor
  · intro h
    have h0 : (st.panels.filter (panelMatches uid orgID)).length = 0 := by
      rw [h]; rfl
    unfold deleteLibraryPanel
    have : st.panels.length -
        (st.panels.filter (fun q => !(panelMatches uid orgID q))).length = 0 := by
      omega
    simp [this]
  · intro p h
    have h1 : (st.panels.filter (panelMatches uid orgID)).length = 1 := by
      rw [h]; rfl
    unfold deleteLibraryPanel
    have : st.panels.length -
        (st.panels.filter (fun q => !(panelMatches uid orgID q))).length = 1 := by
      omega
    simp [this]

/-- C4 witness: on a concrete store holding two panels and a connection row
referencing panel 1, deleting an absent uid is notFound, and deleting panel
1 removes only its row and keeps the other panel and the connection row. -/
theorem delete_exact_row_witness :
    deleteLibraryPanel
      { panels := [{ ID := 1, OrgID := 1, FolderID := 5, UID := "u1", Name := "CPU",
                     Model := some "graph", Created := 10, Updated := 10,
                     CreatedBy := 42, UpdatedBy := 42 },
                   { ID := 2, OrgID := 1, FolderID := 6, UID := "u2", Name := "Mem",
                     Model := none, Created := 11, Updated := 11,
                     CreatedBy := 42, UpdatedBy := 42 }],
        connections := [{ DashboardID := 100, LibraryPanelID := 1, Created := 12,
                          CreatedBy := 42 }] }
      1 "zzz" = Except.error LPError.notFound ∧
    deleteLibraryPanel
      { panels := [{ ID := 1, OrgID := 1, FolderID := 5, UID := "u1", Name := "CPU",
                     Model := some "graph", Created := 10, Updated := 10,
                     CreatedBy := 42, UpdatedBy := 42 },
                   { ID := 2, OrgID := 1, FolderID := 6, UID := "u2", Name := "Mem",
                     Model := none, Created := 11, Updated := 11,
                     CreatedBy := 42, UpdatedBy := 42 }],
        connections := [{ DashboardID := 100, LibraryPanelID := 1, Created := 12,
                          CreatedBy := 42 }] }
      1 "u1" = Except.ok
        { panels := [{ ID := 2, OrgID := 1, FolderID := 6, UID := "u2", Name := "Mem",
                       Model := none, Created := 11, Updated := 11,
                       CreatedBy := 42, UpdatedBy := 42 }],
          connections := [{ DashboardID := 100, LibraryPanelID := 1, Created := 12,
                            CreatedBy := 42 }] } := by
  constructor
  · exact (delete_exact_row _ "zzz" 1).1 (by decide)
  · have h := (delete_exact_row
      { panels := [{ ID := 1, OrgID := 1, FolderID := 5, UID := "u1", Name := "CPU",
                     Model := some "graph", Created := 10, Updated := 10,
                     CreatedBy := 42, UpdatedBy := 42 },
                   { ID := 2, OrgID := 1, FolderID := 6, UID := "u2", Name := "Mem",
                     Model := none, Created := 11, Updated := 11,
                     CreatedBy := 42, UpdatedBy := 42 }],
        connections := [{ DashboardID := 100, LibraryPanelID := 1, Created := 12,
                          CreatedBy := 42 }] } "u1" 1).2
      { ID := 1, OrgID := 1, FolderID := 5, UID := "u1", Name := "CPU",
        Model := some "graph", Created := 10, Updated := 10,
        CreatedBy := 42, UpdatedBy := 42 } (by decide)
    rw [h]
    rfl

/-- C1: patching an existing panel takes folderID, name and model from the
command only when they carry a non-default value (folder id not 0, name
non-empty, model non-nil) and otherwise carries the existing value forward;
the update is issued by the internal key of the existing row, the merged
panel is both stored and returned, and a write affecting zero rows is
classified as notFound. -/
theorem patch_merges_and_updates_by_key (st : DBState) (user orgID : Int)
    (cmd : PatchCommand) (uid : String) (now : Nat) (old : LibraryPanel)
    (hget : getLibraryPanel st uid orgID = Except.ok old)
    (hkey : (st.panels.filter (fun q => q.ID == old.ID)).length = 1)
    (huid : ∀ q ∈ st.panels, q.UID = uid → q.ID = old.ID) :
    (∃ st2 merged,
      patchLibraryPanel st user orgID cmd uid now none = Except.ok (st2, merged) ∧
      merged.FolderID = (if cmd.FolderID = 0 then old.FolderID else cmd.FolderID) ∧
      merged.Name = (if cmd.Name = "" then old.Name else cmd.Name) ∧
      merged.Model = (if cmd.Model = none then old.Model else cmd.Model) ∧
      st2.panels = st.panels.map (fun q => if q.ID = old.ID then merged else q) ∧
      st2.connections = st.connections) ∧
    (∀ st2 m, patchWriteOutcome m (Except.ok (st2, 0)) =
      Except.error LPError.notFound) := by
  have huidm : (mergedPanel old user orgID cmd uid now).UID = uid :=
    (mergedPanel_fixed_fields old user orgID cmd uid now).2.2.1
  have hidm : (mergedPanel old user orgID cmd uid now).ID = old.ID :=
    (mergedPanel_fixed_fields old user orgID cmd uid now).1
  have hany : (st.panels.any (fun q =>
      !(q.ID == old.ID) && q.UID == (mergedPanel old user orgID cmd uid now).UID)) = false := by
    rw [huidm, List.any_eq_false]
    intro q hq
    simp only [Bool.and_eq_true, Bool.not_eq_true', beq_iff_eq, beq_eq_false_iff_ne,
      ne_eq, not_and]
    intro hne hu
    exact hne (huid q hq hu)
  have hrun : patchLibraryPanel st user orgID cmd uid now none =
      Except.ok
        ({ st with
             panels := st.panels.map fun q =>
               if q.ID = old.ID then mergedPanel old user orgID cmd uid now else q },
         mergedPanel old user orgID cmd uid now) := by
    unfold patchLibraryPanel
    rw [hget]
    simp only [sessionUpdatePanelByID, hany, Bool.false_eq_true, if_false,
      patchWriteOutcome, hkey]
    simp
  refine ⟨⟨_, _, hrun, ?_, ?_, ?_, rfl, rfl⟩, fun st2 m => rfl⟩
  · exact (mergedPanel_merge_fields old user orgID cmd uid now).1
  · exact (mergedPanel_merge_fields old user orgID cmd uid now).2.1
  · exact (mergedPanel_merge_fields old user orgID cmd uid now).2.2

/-- C1 witness: patching panel u1 in the concrete store with folder id 7,
an empty name and a non-nil model keeps the stored name and overwrites the
folder id and model, storing and returning the merged row. -/
theorem patch_merges_and_updates_by_key_witness :
    (∃ st2 merged,
      patchLibraryPanel stA 43 1 { FolderID := 7, Name := "", Model := some "m2" }
        "u1" 20 none = Except.ok (st2, merged) ∧
      merged.FolderID = (if (7 : Int) = 0 then panelA.FolderID else 7) ∧
      merged.Name = (if "" = "" then panelA.Name else "") ∧
      merged.Model = (if (some "m2" : Option String) = none then panelA.Model else some "m2") ∧
      st2.panels = stA.panels.map (fun q => if q.ID = panelA.ID then merged else q) ∧
      st2.connections = stA.connections) ∧
    (∀ st2 m, patchWriteOutcome m (Except.ok (st2, 0)) =
      Except.error LPError.notFound) :=
  patch_merges_and_updates_by_key stA 43 1
    { FolderID := 7, Name := "", Model := some "m2" } "u1" 20 panelA
    (by rfl) (by decide) (by decide)

/-- C10: every successful patch of an existing panel, including one whose
command fields are all unset, keeps the internal key, UID, organization id,
Created timestamp and CreatedBy actor of the existing row, while Updated is
set to the current time and UpdatedBy to the acting user. -/
theorem patch_preserves_identity_fields (st : DBState) (user orgID : Int)
    (cmd : PatchCommand) (uid : String) (now : Nat) (old : LibraryPanel)
    (st2 : DBState) (merged : LibraryPanel)
    (hget : getLibraryPanel st uid orgID = Except.ok old)
    (hpatch : patchLibraryPanel st user orgID cmd uid now none =
      Except.ok (st2, merged)) :
    merged.ID = old.ID ∧ merged.UID = old.UID ∧ merged.OrgID = old.OrgID ∧
    merged.Created = old.Created ∧ merged.CreatedBy = old.CreatedBy ∧
    merged.Updated = now ∧ merged.UpdatedBy = user := by
  have hm : merged = mergedPanel old user orgID cmd uid now := by
    unfold patchLibraryPanel at hpatch
    rw [hget] at hpatch
    exact patchWriteOutcome_ok_merged _ _ _ _ hpatch
  obtain ⟨hID, hOrg, hUID, hCr, hCrBy, hUp, hUpBy⟩ :=
    mergedPanel_fixed_fields old user orgID cmd uid now
  obtain ⟨hmem, hmatch⟩ := filter_singleton_mem _ _ _
    ((getLibraryPanel_ok_iff st uid orgID old).mp hget)
  obtain ⟨hu, ho⟩ := (panelMatches_true_iff uid orgID old).mp hmatch
  subst hm
  exact ⟨hID, by rw [hUID, hu], by rw [hOrg, ho], hCr, hCrBy, hUp, hUpBy⟩

/-- C10 witness: patching panel u1 with every command field unset keeps its
key, UID, organization, Created and CreatedBy while stamping Updated with
the current time and UpdatedBy with the acting user. -/
theorem patch_preserves_identity_fields_witness :
    ({ ID := 1, OrgID := 1, FolderID := 5, UID := "u1", Name := "CPU",
       Model := some "graph", Created := 10, Updated := 20,
       CreatedBy := 42, UpdatedBy := 43 } : LibraryPanel).ID = panelA.ID ∧
    ({ ID := 1, OrgID := 1, FolderID := 5, UID := "u1", Name := "CPU",
       Model := some "graph", Created := 10, Updated := 20,
       CreatedBy := 42, UpdatedBy := 43 } : LibraryPanel).UID = panelA.UID ∧
    ({ ID := 1, OrgID := 1, FolderID := 5, UID := "u1", Name := "CPU",
       Model := some "graph", Created := 10, Updated := 20,
       CreatedBy := 42, UpdatedBy := 43 } : LibraryPanel).OrgID = panelA.OrgID ∧
    ({ ID := 1, OrgID := 1, FolderID := 5, UID := "u1", Name := "CPU",
       Model := some "graph", Created := 10, Updated := 20,
       CreatedBy := 42, UpdatedBy := 43 } : LibraryPanel).Created = panelA.Created ∧
    ({ ID := 1, OrgID := 1, FolderID := 5, UID := "u1", Name := "CPU",
       Model := some "graph", Created := 10, Updated := 20,
       CreatedBy := 42, UpdatedBy := 43 } : LibraryPanel).CreatedBy = panelA.CreatedBy ∧
    ({ ID := 1, OrgID := 1, FolderID := 5, UID := "u1", Name := "CPU",
       Model := some "graph", Created := 10, Updated := 20,
       CreatedBy := 42, UpdatedBy := 43 } : LibraryPanel).Updated = 20 ∧
    ({ ID := 1, OrgID := 1, FolderID := 5, UID := "u1", Name := "CPU",
       Model := some "graph", Created := 10, Updated := 20,
       CreatedBy := 42, UpdatedBy := 43 } : LibraryPanel).UpdatedBy = 43 :=
  patch_preserves_identity_fields stA 43 1
    { FolderID := 0, Name := "", Model := none } "u1" 20 panelA
    { panels := [{ ID := 1, OrgID := 1, FolderID := 5, UID := "u1", Name := "CPU",
                   Model := some "graph", Created := 10, Updated := 20,
                   CreatedBy := 42, UpdatedBy := 43 }, panelB], connections := [] }
    { ID := 1, OrgID := 1, FolderID := 5, UID := "u1", Name := "CPU",
      Model := some "graph", Created := 10, Updated := 20,
      CreatedBy := 42, UpdatedBy := 43 }
    (by rfl) (by rfl)

/-- C2: connect is idempotent for every existing panel: when the
(panel key, dashboardID) row already exists the uniqueness conflict is
normalized to success with the store unchanged, and two consecutive connect
calls for the same pair both succeed and leave exactly one stored row for
the pair. -/
theorem connect_idempotent (st : DBState) (user orgID : Int) (uid : String)
    (dashboardID : Int) (now now2 : Nat) (panel : LibraryPanel)
    (hget : getLibraryPanel st uid orgID = Except.ok panel)
    (hinv : (st.connections.filter (connMatches panel.ID dashboardID)).length ≤ 1) :
    ∃ st1,
      connectDashboard st user orgID uid dashboardID now none = Except.ok st1 ∧
      connectDashboard st1 user orgID uid dashboardID now2 none = Except.ok st1 ∧
      (st1.connections.filter (connMatches panel.ID dashboardID)).length = 1 ∧
      ((st.connections.any (connMatches panel.ID dashboardID)) = true → st1 = st) := by
  cases hb : st.connections.any (connMatches panel.ID dashboardID) with
  | true =>
    refine ⟨st, ?_, ?_, ?_, fun _ => rfl⟩
    · unfold connectDashboard
      rw [hget]
      simp only [sessionInsertConn, hb, if_true]
    · unfold connectDashboard
      rw [hget]
      simp only [sessionInsertConn, hb, if_true]
    · obtain ⟨c, hc, hm⟩ := List.any_eq_true.mp hb
      have hmem : c ∈ st.connections.filter (connMatches panel.ID dashboardID) :=
        List.mem_filter.mpr ⟨hc, hm⟩
      have hpos : 0 < (st.connections.filter (connMatches panel.ID dashboardID)).length :=
        List.length_pos.mpr (List.ne_nil_of_mem hmem)
      omega
  | false =>
    have hnil : st.connections.filter (connMatches panel.ID dashboardID) = [] :=
      List.filter_eq_nil_iff.mpr (List.any_eq_false.mp hb)
    refine ⟨{ st with connections := st.connections ++
        [{ DashboardID := dashboardID, LibraryPanelID := panel.ID,
           Created := now, CreatedBy := user }] }, ?_, ?_, ?_, ?_⟩
    · unfold connectDashboard
      rw [hget]
      simp only [sessionInsertConn, hb, Bool.false_eq_true, if_false]
    · unfold connectDashboard
      have hget2 : getLibraryPanel { st with connections := st.connections ++
          [{ DashboardID := dashboardID, LibraryPanelID := panel.ID,
             Created := now, CreatedBy := user }] } uid orgID = Except.ok panel := hget
      rw [hget2]
      have hany2 : ((st.connections ++
          [({ DashboardID := dashboardID, LibraryPanelID := panel.ID,
              Created := now, CreatedBy := user } : LibraryPanelDashboard)]).any
            (connMatches panel.ID dashboardID)) = true := by
        simp [connMatches]
      simp only [sessionInsertConn, hany2, if_true]
    · simp only [List.filter_append, hnil, List.nil_append]
      simp [connMatches]
    · intro h
      exact Bool.noConfusion h

/-- C2 witness: in the concrete store where panel 1 is already connected to
dashboard 100, connecting twice succeeds both times, leaves the store as it
was, and exactly one row for the pair is stored. -/
theorem connect_idempotent_witness :
    ∃ st1,
      connectDashboard stB 42 1 "u1" 100 13 none = Except.ok st1 ∧
      connectDashboard st1 42 1 "u1" 100 14 none = Except.ok st1 ∧
      (st1.connections.filter (connMatches panelA.ID 100)).length = 1 ∧
      ((stB.connections.any (connMatches panelA.ID 100)) = true → st1 = stB) :=
  connect_idempotent stB 42 1 "u1" 100 13 14 panelA (by rfl) (by decide)

/-- C5: for every existing panel, disconnect deletes the join row matching
(panel key, dashboardID); when the pair was never connected the delete
affects zero rows and the call fails with the connection-not-found error,
and when exactly one row matches it is removed. -/
theorem disconnect_exactly_one (st : DBState) (orgID : Int) (uid : String)
    (dashboardID : Int) (panel : LibraryPanel)
    (hget : getLibraryPanel st uid orgID = Except.ok panel) :
    (st.connections.filter (connMatches panel.ID dashboardID) = [] →
      disconnectDashboard st orgID uid dashboardID =
        Except.error LPError.dashboardNotFound) ∧
    (∀ c, st.connections.filter (connMatches panel.ID dashboardID) = [c] →
      disconnectDashboard st orgID uid dashboardID =
        Except.ok { st with connections :=
          st.connections.filter (fun k => !(connMatches panel.ID dashboardID k)) }) := by
  have hlen := length_filter_add_length_filter_not st.connections
    (connMatches panel.ID dashboardID)
  constructor
  · intro h
    have h0 : (st.connections.filter (connMatches panel.ID dashboardID)).length = 0 := by
      rw [h]; rfl
    unfold disconnectDashboard
    rw [hget]
    have hz : st.connections.length -
        (st.connections.filter (fun k => !(connMatches panel.ID dashboardID k))).length = 0 := by
      omega
    simp [hz]
  · intro c h
    have h1 : (st.connections.filter (connMatches panel.ID dashboardID)).length = 1 := by
      rw [h]; rfl
    unfold disconnectDashboard
    rw [hget]
    have hz : st.connections.length -
        (st.connections.filter (fun k => !(connMatches panel.ID dashboardID k))).length = 1 := by
      omega
    simp [hz]

/-- C5 witness: in the concrete store, disconnecting the connected pair
(panel 1, dashboard 100) removes exactly that row, and disconnecting a pair
that was never connected fails with the connection-not-found error. -/
theorem disconnect_exactly_one_witness :
    disconnectDashboard stB 1 "u1" 999 = Except.error LPError.dashboardNotFound ∧
    disconnectDashboard stB 1 "u1" 100 =
      Except.ok { stB with connections :=
        stB.connections.filter (fun k => !(connMatches panelA.ID 100 k)) } := by
  constructor
  · exact (disconnect_exactly_one stB 1 "u1" 999 panelA (by rfl)).1 (by decide)
  · exact (disconnect_exactly_one stB 1 "u1" 100 panelA (by rfl)).2 connA (by decide)

/-- C6: on both create and patch, the AlreadyExists error is returned
exactly when the storage layer reports a uniqueness-constraint violation,
and any other storage fault on create passes through unclassified as a
storage error. -/
theorem alreadyExists_iff_unique_conflict (st : DBState) (user orgID : Int)
    (ccmd : CreateCommand) (pcmd : PatchCommand) (genUID uid : String)
    (now : Nat) (fault : Option SqlError) (old : LibraryPanel)
    (hget : getLibraryPanel st uid orgID = Except.ok old) :
    (createLibraryPanel st user orgID ccmd genUID now fault =
        Except.error LPError.alreadyExists ↔
      sessionInsertPanel st (newLibraryPanel st user orgID ccmd genUID now) fault =
        Except.error SqlError.uniqueViolation) ∧
    (∀ code, createLibraryPanel st user orgID ccmd genUID now
        (some (SqlError.other code)) = Except.error (LPError.storage code)) ∧
    (patchLibraryPanel st user orgID pcmd uid now fault =
        Except.error LPError.alreadyExists ↔
      sessionUpdatePanelByID st old.ID (mergedPanel old user orgID pcmd uid now) fault =
        Except.error SqlError.uniqueViolation) := by
  refine ⟨?_, fun code => rfl, ?_⟩
  · unfold createLibraryPanel
    cases hs : sessionInsertPanel st (newLibraryPanel st user orgID ccmd genUID now) fault with
    | error e => cases e <;> simp [hs]
    | ok st2 => simp [hs]
  · unfold patchLibraryPanel
    rw [hget]
    exact patchWriteOutcome_alreadyExists_iff _ _

/-- C6 witness: creating a panel whose generated UID collides with the
stored panel u1 hits the natural uniqueness check and fails with
AlreadyExists, while a patch of u1 with no injected fault does not. -/
theorem alreadyExists_iff_unique_conflict_witness :
    (createLibraryPanel stA 42 1 { FolderID := 0, Name := "X", Model := none }
        "u1" 30 none = Except.error LPError.alreadyExists ↔
      sessionInsertPanel stA
        (newLibraryPanel stA 42 1 { FolderID := 0, Name := "X", Model := none } "u1" 30)
        none = Except.error SqlError.uniqueViolation) ∧
    (∀ code, createLibraryPanel stA 42 1 { FolderID := 0, Name := "X", Model := none }
        "u1" 30 (some (SqlError.other code)) = Except.error (LPError.storage code)) ∧
    (patchLibraryPanel stA 42 1 { FolderID := 0, Name := "", Model := none }
        "u1" 30 none = Except.error LPError.alreadyExists ↔
      sessionUpdatePanelByID stA panelA.ID
        (mergedPanel panelA 42 1 { FolderID := 0, Name := "", Model := none } "u1" 30)
        none = Except.error SqlError.uniqueViolation) :=
  alreadyExists_iff_unique_conflict stA 42 1
    { FolderID := 0, Name := "X", Model := none }
    { FolderID := 0, Name := "", Model := none } "u1" "u1" 30 none panelA (by rfl)

/-- C7: connect, disconnect and the connected-dashboards listing all resolve
the panel by (uid, orgID) first; when no panel row matches, each fails with
notFound and, under the rollback semantics of the session, no join-table row
is inserted or deleted. -/
theorem relationship_ops_resolve_panel_first (st : DBState) (user orgID : Int)
    (uid : String) (dashboardID : Int) (now : Nat) (fault : Option SqlError)
    (habsent : st.panels.filter (panelMatches uid orgID) = []) :
    connectDashboard st user orgID uid dashboardID now fault =
      Except.error LPError.notFound ∧
    disconnectDashboard st orgID uid dashboardID = Except.error LPError.notFound ∧
    getConnectedDashboards st orgID uid = Except.error LPError.notFound ∧
    runConnect st user orgID uid dashboardID now fault = st ∧
    runDisconnect st orgID uid dashboardID = st := by
  have hnf := (getLibraryPanel_notFound_iff st uid orgID).mpr habsent
  have hc : connectDashboard st user orgID uid dashboardID now fault =
      Except.error LPError.notFound := by
    unfold connectDashboard
    rw [hnf]
  have hd : disconnectDashboard st orgID uid dashboardID =
      Except.error LPError.notFound := by
    unfold disconnectDashboard
    rw [hnf]
  have hg : getConnectedDashboards st orgID uid = Except.error LPError.notFound := by
    unfold getConnectedDashboards
    rw [hnf]
  refine ⟨hc, hd, hg, ?_, ?_⟩
  · unfold runConnect
    rw [hc]
  · unfold runDisconnect
    rw [hd]

/-- C7 witness: with no panel stored under uid zzz, connect, disconnect and
the listing all fail with notFound and the concrete store is unchanged. -/
theorem relationship_ops_resolve_panel_first_witness :
    connectDashboard stB 42 1 "zzz" 100 13 none = Except.error LPError.notFound ∧
    disconnectDashboard stB 1 "zzz" 100 = Except.error LPError.notFound ∧
    getConnectedDashboards stB 1 "zzz" = Except.error LPError.notFound ∧
    runConnect stB 42 1 "zzz" 100 13 none = stB ∧
    runDisconnect stB 1 "zzz" 100 = stB :=
  relationship_ops_resolve_panel_first stB 42 1 "zzz" 100 13 none (by decide)

/-! Session-scope and context-argument embedding for C8 and C9.

Each service operation opens its database session through exactly one of
the two SQLStore helpers; which helper, and which context value is handed
to it, is recorded here directly from the call sites in database.go. -/

/-- Which session helper an operation calls: WithTransactionalDbSession
(an atomic transaction scope) or WithDbSession (a plain session). -/
inductive SessionKind where
  | transactional
  | plain
deriving DecidableEq

/-- createLibraryPanel opens WithTransactionalDbSession (line 30). -/
def createLibraryPanelSession : SessionKind := SessionKind.transactional

/-- connectDashboard opens WithTransactionalDbSession (line 45). -/
def connectDashboardSession : SessionKind := SessionKind.transactional

/-- deleteLibraryPanel opens WithTransactionalDbSession (line 74). -/
def deleteLibraryPanelSession : SessionKind := SessionKind.transactional

/-- disconnectDashboard opens WithTransactionalDbSession (line 92). -/
def disconnectDashboardSession : SessionKind := SessionKind.transactional

/-- The service-level getLibraryPanel opens WithDbSession (line 134). -/
def getLibraryPanelSession : SessionKind := SessionKind.plain

/-- getAllLibraryPanels opens WithDbSession (line 147). -/
def getAllLibraryPanelsSession : SessionKind := SessionKind.plain

/-- getConnectedDashboards opens WithDbSession (line 162). -/
def getConnectedDashboardsSession : SessionKind := SessionKind.plain

/-- patchLibraryPanel opens WithTransactionalDbSession (line 189). -/
def patchLibraryPanelSession : SessionKind := SessionKind.transactional

/-- The context value an operation hands to its session helper: the fresh
background context or the context of the calling request. -/
inductive CtxArg where
  | background
  | caller
deriving DecidableEq

/-- createLibraryPanel passes context.Background() (line 30). -/
def createLibraryPanelCtx : CtxArg := CtxArg.background

/-- connectDashboard passes context.Background() (line 45). -/
def connectDashboardCtx : CtxArg := CtxArg.background

/-- deleteLibraryPanel passes context.Background() (line 74). -/
def deleteLibraryPanelCtx : CtxArg := CtxArg.background

/-- disconnectDashboard passes context.Background() (line 92). -/
def disconnectDashboardCtx : CtxArg := CtxArg.background

/-- The service-level getLibraryPanel passes context.Background() (line 134). -/
def getLibraryPanelCtx : CtxArg := CtxArg.background

/-- getAllLibraryPanels passes context.Background() (line 147). -/
def getAllLibraryPanelsCtx : CtxArg := CtxArg.background

/-- getConnectedDashboards passes context.Background() (line 162). -/
def getConnectedDashboardsCtx : CtxArg := CtxArg.background

/-- patchLibraryPanel passes context.Background() (line 189). -/
def patchLibraryPanelCtx : CtxArg := CtxArg.background

/-- Modelled from the spec: the Transaction Scope collaborator (not part of
this repository) aborts on cancellation of the deadline/cancellation signal
it receives; a scope given the background context never sees the
cancellation of the caller, a scope given the caller context aborts exactly
when the caller is cancelled. -/
def scopeAborts (callerCancelled : Bool) (arg : CtxArg) : Bool :=
  match arg with
  | CtxArg.caller => callerCancelled
  | CtxArg.background => false

/-- C8 counterexample: listing the dashboards connected to a panel performs
its resolve-then-read in a plain WithDbSession, not inside a transactional
scope, refuting the claim that every multi-step operation, the listing
included, executes inside a single atomic Transaction Scope. -/
theorem getConnectedDashboards_not_transactional :
    getConnectedDashboardsSession ≠ SessionKind.transactional := by
  decide

/-- C8 amended: patch, connect, disconnect (and create and delete) each
execute inside a single transactional scope, while the connected-dashboards
listing performs its resolve-then-read in a plain non-transactional
session. -/
theorem multi_step_session_kinds :
    patchLibraryPanelSession = SessionKind.transactional ∧
    connectDashboardSession = SessionKind.transactional ∧
    disconnectDashboardSession = SessionKind.transactional ∧
    createLibraryPanelSession = SessionKind.transactional ∧
    deleteLibraryPanelSession = SessionKind.transactional ∧
    getConnectedDashboardsSession = SessionKind.plain := by
  decide

/-- C9 counterexample: patchLibraryPanel hands the fresh background context,
not the caller context, to its transaction scope, so a cancelled caller does
not abort the scope, refuting the claim that every operation passes the
caller-supplied deadline/cancellation signal through. -/
theorem patch_ignores_caller_cancellation :
    scopeAborts true patchLibraryPanelCtx = false ∧
    patchLibraryPanelCtx ≠ CtxArg.caller := by
  decide

/-- C9 amended: every operation hands a fresh background context to its
session helper, so cancellation of the caller context never aborts the
scope of any operation. -/
theorem all_ops_use_background_context :
    createLibraryPanelCtx = CtxArg.background ∧
    connectDashboardCtx = CtxArg.background ∧
    deleteLibraryPanelCtx = CtxArg.background ∧
    disconnectDashboardCtx = CtxArg.background ∧
    getLibraryPanelCtx = CtxArg.background ∧
    getAllLibraryPanelsCtx = CtxArg.background ∧
    getConnectedDashboardsCtx = CtxArg.background ∧
    patchLibraryPanelCtx = CtxArg.background ∧
    scopeAborts true CtxArg.background = false ∧
    scopeAborts false CtxArg.background = false := by
  decide

end LibraryPanels
